import Mathlib

/-!
Verification of the multi-source contact enrichment, deduplication and
confidence-scoring pipeline.

The development shallowly embeds the relevant server modules:

* the enrichment engine (interfaces EnrichmentSource / EnrichedContactData,
  functions extractGitHubUsername, extractORCIDId, enrichContact,
  calculateConfidenceScore);
* the dedup / similarity module (createContactText, calculateTextSimilarity,
  deduplicateContactData, improveConfidenceScore);
* the orchestrator tail of processDocumentExtraction in routes.ts
  (merge-on-duplicate vs. create-new-contact).

Modelling conventions:

* JavaScript string fields are modelled as String, with the empty string
  standing for both "" and undefined/null (all of which are falsy and are
  only ever inspected through truthiness or equality by the code under
  study); the helper jsPresent models JS truthiness of a string.
* JS numbers are modelled as rationals (the arithmetic performed by the
  scorers is a short sum of decimal constants, where exact arithmetic and
  IEEE-754 doubles agree on every comparison the code performs).
* Each external network call is replaced by an explicit parameter carrying
  the outcome of that call (an Option of the parsed payload, or an
  HFOutcome for the similarity service), so that every function becomes
  pure and total; a lookup parameter set to none models both "no match"
  and any thrown/caught network error, exactly as the try/catch blocks in
  the source collapse the two.
* Opaque JS objects that the pipeline only moves around and compares for
  identity (education entries, repository entries, stored enrichedData
  values) are modelled as String tokens.
-/

/-- Truthiness of a JavaScript string: empty string (and the undefined/null
it also stands for in this model) is falsy, anything else truthy. -/
def jsPresent (s : String) : Bool := s != ""

/-- The JS idiom `a || b` on string fields: keep a when truthy, else b.
This is the first-non-empty-wins primitive used throughout enrichContact. -/
def jsOr (a b : String) : String := if a = "" then b else a

/-- Javascript `Array.from(new Set(l))` on a list of strings: de-duplicate
keeping the first occurrence of each element, preserving insertion order. -/
def jsSetDedup : List String → List String
  | [] => []
  | x :: xs => x :: jsSetDedup (xs.filter (fun y => y ≠ x))
termination_by l => l.length
decreasing_by
  simp only [List.length_cons]
  exact Nat.lt_succ_of_le (List.length_filter_le _ _)

/-- Enrichment provenance record, `EnrichmentSource` of the enrichment
engine (the per-source payload `data` is carried separately in this
embedding, in the typed lookup-outcome structures below). -/
structure EnrichmentSource where
  source : String
  url : String
  verified : Bool
deriving DecidableEq, Repr

/-- The canonical contact profile shape shared by the raw extracted data
(`extractedData`) and the merged result (`EnrichedContactData` minus its
`sources`/`confidenceScore` bookkeeping, which the embedding keeps in
`EnrichedResult`). Fields the pipeline never reads or writes
(experience, publications, twitterUrl, ...) are omitted: they pass
through the object spread unchanged. -/
structure ContactData where
  name : String := ""
  email : String := ""
  phone : String := ""
  company : String := ""
  title : String := ""
  location : String := ""
  bio : String := ""
  websiteUrl : String := ""
  githubUrl : String := ""
  linkedinUrl : String := ""
  orcidUrl : String := ""
  skills : List String := []
  education : List String := []
  repositories : List String := []
deriving DecidableEq, Repr

/-- The profile with every field empty. -/
def emptyContact : ContactData := {}

/-- The seven canonical fields inspected by both confidence scorers:
`[data.name, data.email, data.phone, data.company, data.title,
data.location, data.bio]`. -/
def canonicalFields (data : ContactData) : List String :=
  [data.name, data.email, data.phone, data.company,
   data.title, data.location, data.bio]

/-- The enrichment engine scorer `calculateConfidenceScore(sources, data)`
(identical in src/server/enrichment.ts and the unnamed enrichment module):
start at 0.5; add 0.15 per verified source; add 0.2 times the filled
fraction of the seven canonical fields; add flat 0.05 bonuses for truthy
email, phone, githubUrl, linkedinUrl and orcidUrl; return
`Math.min(score, 1.0)`. -/
def calculateConfidenceScore (sources : List EnrichmentSource) (data : ContactData) : ℚ :=
  min (0.5
    + ((sources.filter (fun s => s.verified)).length : ℚ) * 0.15
    + ((((canonicalFields data).filter (fun f => jsPresent f)).length : ℚ) / 7) * 0.2
    + (if jsPresent data.email then 0.05 else 0)
    + (if jsPresent data.phone then 0.05 else 0)
    + (if jsPresent data.githubUrl then 0.05 else 0)
    + (if jsPresent data.linkedinUrl then 0.05 else 0)
    + (if jsPresent data.orcidUrl then 0.05 else 0))
    1.0

/-- Does a character qualify for the local/domain parts of the dedup
module email regex, i.e. match `[^\s@]`? -/
def emailChar (c : Char) : Bool := !c.isWhitespace && c != '@'

/-- The dedup module email test `/^[^\s@]+@[^\s@]+\.[^\s@]+$/.test(email)`:
the string splits at its (necessarily unique) `@` into a nonempty
whitespace-free local part and a domain that is nonempty, whitespace-free
and contains a dot at an interior position. -/
def validEmail (email : String) : Bool :=
  match email.toList.findIdx? (fun c => c == '@') with
  | none => false
  | some i =>
    let loc := email.toList.take i
    let dom := email.toList.drop (i + 1)
    !loc.isEmpty && loc.all emailChar && !dom.isEmpty && dom.all emailChar
      && (dom.drop 1).dropLast.contains '.'

/-- The dedup module scorer `improveConfidenceScore(extractedData,
enrichedData, sources, hfApiKey)` (used by the orchestrator when a dedup
API key is present): start at 0.5; add 0.15 per verified source; add 0.2
times the filled fraction of the seven canonical field names it indexes
into enrichedData; add 0.05 when email is truthy and passes the regex
test; add flat 0.05 bonuses for githubUrl, linkedinUrl, orcidUrl; add
0.05 when at least 3 sources were collected; return
`Math.min(baseScore, 1.0)`. Its try/catch (fallback 0.85) cannot fire:
the body performs no fallible operation. The extractedData and hfApiKey
arguments are accepted and ignored, as in the source. -/
def improveConfidenceScore (extractedData : ContactData) (enrichedData : ContactData)
    (sources : List EnrichmentSource) (hfApiKey : String) : ℚ :=
  min (0.5
    + ((sources.filter (fun s => s.verified)).length : ℚ) * 0.15
    + ((((canonicalFields enrichedData).filter (fun f => jsPresent f)).length : ℚ) / 7) * 0.2
    + (if jsPresent enrichedData.email && validEmail enrichedData.email then 0.05 else 0)
    + (if jsPresent enrichedData.githubUrl then 0.05 else 0)
    + (if jsPresent enrichedData.linkedinUrl then 0.05 else 0)
    + (if jsPresent enrichedData.orcidUrl then 0.05 else 0)
    + (if 3 ≤ sources.length then 0.05 else 0))
    1.0

/-- Modelled from the spec: the confidence formula exactly as claim C1 and
spec section 4.4 state it — base 0.5, 0.15 per verified source, 0.2 times
the canonical-field fraction, 0.05 iff email is present and matches the
local@domain.tld pattern, 0.05 each for the code-hosting (githubUrl),
professional-network (linkedinUrl) and academic-registry (orcidUrl) URLs,
no other additive terms, capped at 1.0. Written only to be compared with
the code scorer above. -/
def claimedConfidenceScore (sources : List EnrichmentSource) (data : ContactData) : ℚ :=
  min (0.5
    + ((sources.filter (fun s => s.verified)).length : ℚ) * 0.15
    + ((((canonicalFields data).filter (fun f => jsPresent f)).length : ℚ) / 7) * 0.2
    + (if jsPresent data.email && validEmail data.email then 0.05 else 0)
    + (if jsPresent data.githubUrl then 0.05 else 0)
    + (if jsPresent data.linkedinUrl then 0.05 else 0)
    + (if jsPresent data.orcidUrl then 0.05 else 0))
    1.0

/-- The additive terms of the code scorer, listed in the order the source
accumulates them; summing them order-independently and capping at 1.0
recovers calculateConfidenceScore (amended claim C1). -/
def confidenceScoreTerms (sources : List EnrichmentSource) (data : ContactData) : List ℚ :=
  [0.5,
   ((sources.filter (fun s => s.verified)).length : ℚ) * 0.15,
   ((((canonicalFields data).filter (fun f => jsPresent f)).length : ℚ) / 7) * 0.2,
   if jsPresent data.email then 0.05 else 0,
   if jsPresent data.phone then 0.05 else 0,
   if jsPresent data.githubUrl then 0.05 else 0,
   if jsPresent data.linkedinUrl then 0.05 else 0,
   if jsPresent data.orcidUrl then 0.05 else 0]

/-- A profile whose only filled field is the phone number: the input on
which the code scorer and the spec formula part ways. -/
def phoneOnlyContact : ContactData := { emptyContact with phone := "555-0100" }

/-- A profile whose only filled field is a well-formed email address. -/
def emailOnlyContact : ContactData := { emptyContact with email := "jane@example.org" }

/-- A profile with a phone number and an email that does not match the
local@domain.tld pattern: both the phone bonus the claimed formula lacks
and the pattern check the code lacks are visible on it. -/
def phoneBadEmailContact : ContactData :=
  { emptyContact with phone := "555-0100", email := "not-an-email" }

/-- Outcome of one HTTP call to the text-similarity service, as observed
by the try/catch in calculateTextSimilarity: either the fetch/json step
threw, or a response arrived with an ok flag and a parsed body. The body
is the JSON array of similarity numbers when the service returned one;
the empty list also stands for any non-array payload, which the source
treats identically (it falls through to `return 0`). -/
inductive HFOutcome where
  | raises : HFOutcome
  | response (ok : Bool) (body : List ℚ) : HFOutcome
deriving DecidableEq, Repr

/-- Similarity-service wrapper calculateTextSimilarity: a thrown error
maps to 0, a non-ok response maps to 0, a nonempty result array yields
its first element, anything else yields 0. It never propagates an
exception. -/
def calculateTextSimilarity : HFOutcome → ℚ
  | .raises => 0
  | .response ok body =>
    if !ok then 0
    else
      match body with
      | x :: _ => x
      | [] => 0

/-- Has this similarity call failed (thrown or non-ok response)? -/
def hfFailed : HFOutcome → Bool
  | .raises => true
  | .response ok _ => !ok

/-- The six fields createContactText flattens, shared by the candidate
profile and stored contacts. -/
structure TextFields where
  name : String := ""
  email : String := ""
  phone : String := ""
  company : String := ""
  title : String := ""
  location : String := ""
deriving DecidableEq, Repr

/-- Comparison-string builder createContactText: keep the truthy ones of
name, email, phone, company, title, location; join with " | "; then
lower-case. -/
def createContactText (data : TextFields) : String :=
  (String.intercalate " | "
    (([data.name, data.email, data.phone, data.company,
       data.title, data.location]).filter (fun f => jsPresent f))).toLower

/-- The six comparison fields of a merged profile. -/
def ContactData.textFields (d : ContactData) : TextFields :=
  { name := d.name, email := d.email, phone := d.phone,
    company := d.company, title := d.title, location := d.location }

/-- A persisted Contact row, restricted to the columns the pipeline tail
reads or writes: the comparison fields, provenance, confidence, and the
stored enrichedData JSON object (modelled as an association list of
opaque key/value strings). -/
structure StoredContact where
  id : String
  name : String := ""
  email : String := ""
  phone : String := ""
  company : String := ""
  title : String := ""
  location : String := ""
  confidenceScore : ℚ := 0
  sources : List EnrichmentSource := []
  enrichedData : List (String × String) := []
deriving DecidableEq, Repr

/-- The six comparison fields of a stored contact. -/
def StoredContact.textFields (c : StoredContact) : TextFields :=
  { name := c.name, email := c.email, phone := c.phone,
    company := c.company, title := c.title, location := c.location }

/-- Result shape of deduplicateContactData. -/
structure DedupResult where
  isDuplicate : Bool
  duplicateId : Option String := none
  confidence : ℚ
deriving DecidableEq, Repr

/-- The scan loop of deduplicateContactData: for each existing contact in
order, obtain the similarity of the (precomputed) candidate text against
that contact's text; the first contact whose similarity strictly exceeds
0.85 is returned as the duplicate with that similarity as confidence;
exhausting the list yields not-a-duplicate with confidence 1.0. The
network call is the svc parameter. -/
def dedupScanLoop (svc : String → String → HFOutcome) (newContactText : String) :
    List StoredContact → DedupResult
  | [] => { isDuplicate := false, confidence := 1.0 }
  | contact :: rest =>
    let existingText := createContactText contact.textFields
    let similarity := calculateTextSimilarity (svc newContactText existingText)
    if 0.85 < similarity then
      { isDuplicate := true, duplicateId := some contact.id, confidence := similarity }
    else
      dedupScanLoop svc newContactText rest

/-- Deduplication entry point deduplicateContactData(newData,
existingContacts, hfApiKey): empty existing list short-circuits to
not-a-duplicate with confidence 1.0 before any similarity call; otherwise
the candidate text is built once and the list scanned in order. Its outer
try/catch (fallback confidence 0.8) cannot fire in this model because
calculateTextSimilarity already absorbs every service failure. -/
def deduplicateContactData (newData : TextFields) (existingContacts : List StoredContact)
    (svc : String → String → HFOutcome) : DedupResult :=
  if existingContacts.isEmpty then
    { isDuplicate := false, confidence := 1.0 }
  else
    dedupScanLoop svc (createContactText newData) existingContacts

/-- Similarity the dedup scan observes between candidate and one stored
contact under the service behaviour svc. -/
def simOf (svc : String → String → HFOutcome) (newData : TextFields)
    (c : StoredContact) : ℚ :=
  calculateTextSimilarity (svc (createContactText newData) (createContactText c.textFields))

/-- A candidate profile used to exercise the dedup scan concretely. -/
def dedupCandidate : TextFields := { name := "Jane Doe", email := "jane@example.org" }

/-- Two stored contacts used to exercise the dedup scan concretely. -/
def storedA : StoredContact := { id := "contact-a", name := "Janet Moe" }

/-- Second concrete stored contact; the scan matches this one. -/
def storedB : StoredContact := { id := "contact-b", name := "Jane Doe" }

/-- A concrete similarity service behaviour answering 0.95 to every
comparison. -/
def svcConst : String → String → HFOutcome :=
  fun _ _ => .response true [19/20]

/-- A concrete similarity service behaviour that throws on every call. -/
def svcRaises : String → String → HFOutcome :=
  fun _ _ => .raises

/-- Scan for the first position from which the regex
/github\.com\/([^\/]+)/ matches: a literal "github.com/" followed by at
least one non-slash character; the capture is the maximal run of
non-slash characters there. -/
def findGithubUser : List Char → Option (List Char)
  | [] => none
  | c :: rest =>
    if ("github.com/".toList).isPrefixOf (c :: rest) then
      let cap := ((c :: rest).drop 11).takeWhile (fun ch => ch ≠ '/')
      if cap.isEmpty then findGithubUser rest else some cap
    else findGithubUser rest

/-- The resolver extractGitHubUsername: null on a falsy url, else the
first regex capture, null when the pattern never matches. -/
def extractGitHubUsername (url : String) : Option String :=
  if url = "" then none
  else (findGithubUser url.toList).map (fun l => String.mk l)

/-- Character classes of the 19-character ORCID id pattern
\d{4}-\d{4}-\d{4}-\d{3}[0-9X]: dashes at offsets 4, 9 and 14, a digit or
capital X at offset 18, digits elsewhere. -/
def orcidCharOk (i : Nat) (c : Char) : Bool :=
  if i = 4 ∨ i = 9 ∨ i = 14 then c == '-'
  else if i = 18 then c.isDigit || c == 'X'
  else c.isDigit

/-- Try to read an ORCID id at the head of the character list. -/
def orcidHere (cs : List Char) : Option (List Char) :=
  let t := cs.take 19
  if t.length = 19 ∧ t.enum.all (fun p => orcidCharOk p.1 p.2) then some t else none

/-- Scan for the first position from which the regex
/orcid\.org\/(\d{4}-\d{4}-\d{4}-\d{3}[0-9X])/ matches. -/
def findOrcid : List Char → Option (List Char)
  | [] => none
  | c :: rest =>
    if ("orcid.org/".toList).isPrefixOf (c :: rest) then
      match orcidHere ((c :: rest).drop 10) with
      | some t => some t
      | none => findOrcid rest
    else findOrcid rest

/-- The resolver extractORCIDId: null on a falsy url, else the first
regex capture. -/
def extractORCIDId (url : String) : Option String :=
  if url = "" then none
  else (findOrcid url.toList).map (fun l => String.mk l)

/-- The fields of a GitHub lookup payload that enrichContact reads.
Repository entries are opaque tokens; skills is the de-duplicated
language list the extractor already computed. -/
structure GithubData where
  name : String := ""
  email : String := ""
  company : String := ""
  location : String := ""
  bio : String := ""
  websiteUrl : String := ""
  repositories : List String := []
  skills : List String := []
deriving DecidableEq, Repr

/-- A successful GitHub lookup: canonical profile url plus payload. -/
structure GithubSource where
  url : String := ""
  data : GithubData := {}
deriving DecidableEq, Repr

/-- One ORCID employment entry as enrichContact reads it. -/
structure OrcidEmployment where
  organization : String := ""
  role : String := ""
deriving DecidableEq, Repr

/-- The fields of an ORCID lookup payload that enrichContact reads;
education entries are opaque tokens. -/
structure OrcidData where
  name : String := ""
  bio : String := ""
  employments : List OrcidEmployment := []
  educations : List String := []
deriving DecidableEq, Repr

/-- A successful ORCID lookup: canonical profile url plus payload. -/
structure OrcidSource where
  url : String := ""
  data : OrcidData := {}
deriving DecidableEq, Repr

/-- The fields read from the Stack Exchange, Wikidata, Dev.to and GitLab
payloads (Wikidata only contributes its name in the merge). -/
structure WebProfileData where
  name : String := ""
  bio : String := ""
  location : String := ""
  websiteUrl : String := ""
deriving DecidableEq, Repr

/-- A successful lookup against one of the simple web-profile sources. -/
structure WebProfileSource where
  url : String := ""
  data : WebProfileData := {}
deriving DecidableEq, Repr

/-- Outcomes of the external calls one enrichContact run can make, one
field per call site; none stands for no-match and for a thrown/caught
network error alike, exactly as the source collapses the two. A lookup
field is only consulted when the source actually performs that call. -/
structure EnrichEnv where
  searchGitHubByEmail : Option String := none
  githubLookup : Option GithubSource := none
  searchORCIDByName : Option String := none
  orcidLookup : Option OrcidSource := none
  stackLookup : Option WebProfileSource := none
  wikiLookup : Option WebProfileSource := none
  devtoLookup : Option WebProfileSource := none
  gitlabLookup : Option WebProfileSource := none

/-- The environment in which no source lookup succeeds. -/
def envNone : EnrichEnv := {}

/-- The githubUsername variable of enrichContact after its two-stage
resolution: the URL pattern-match first; when that result is falsy and
the raw email is truthy, the email-search result (null collapsed to ""). -/
def ghUsernameOf (raw : ContactData) (env : EnrichEnv) : String :=
  let u := (extractGitHubUsername raw.githubUrl).getD ""
  if u = "" ∧ raw.email ≠ "" then (env.searchGitHubByEmail).getD "" else u

/-- The orcidId variable of enrichContact after its two-stage resolution:
the URL pattern-match first; when falsy and the raw name is truthy, the
name-search result. -/
def orcidIdOf (raw : ContactData) (env : EnrichEnv) : String :=
  let i := (extractORCIDId raw.orcidUrl).getD ""
  if i = "" ∧ raw.name ≠ "" then (env.searchORCIDByName).getD "" else i

/-- Accumulator state of enrichContact: the allData object under
construction and the sources array. -/
abbrev EnrichState := ContactData × List EnrichmentSource

/-- The GitHub block of enrichContact: when a username resolved and the
lookup succeeded, push the provenance record; fill name, email, company,
location, bio and websiteUrl first-non-empty; overwrite githubUrl with
the canonical profile URL and repositories with the fetched list; union
skills with set-style de-duplication. -/
def githubStep (raw : ContactData) (env : EnrichEnv) (st : EnrichState) : EnrichState :=
  if ghUsernameOf raw env ≠ "" then
    match env.githubLookup with
    | some gh =>
      ({ st.1 with
          name := jsOr st.1.name gh.data.name,
          email := jsOr st.1.email gh.data.email,
          company := jsOr st.1.company gh.data.company,
          location := jsOr st.1.location gh.data.location,
          bio := jsOr st.1.bio gh.data.bio,
          websiteUrl := jsOr st.1.websiteUrl gh.data.websiteUrl,
          githubUrl := gh.url,
          repositories := gh.data.repositories,
          skills := jsSetDedup (st.1.skills ++ gh.data.skills) },
       st.2 ++ [{ source := "github", url := gh.url, verified := true }])
    | none => st
  else st

/-- The ORCID block of enrichContact: when an id resolved and the lookup
succeeded, push the provenance record; fill name and bio first-non-empty;
overwrite orcidUrl with the canonical URL; when the employments list is
nonempty fill company and title first-non-empty from its head; append the
educations list to education (the source guards on the array being
truthy, which a JS array always is, so the append is unconditional). -/
def orcidStep (raw : ContactData) (env : EnrichEnv) (st : EnrichState) : EnrichState :=
  if orcidIdOf raw env ≠ "" then
    match env.orcidLookup with
    | some oc =>
      let d1 := { st.1 with
        name := jsOr st.1.name oc.data.name,
        bio := jsOr st.1.bio oc.data.bio,
        orcidUrl := oc.url }
      let d2 := match oc.data.employments with
        | emp :: _ =>
          { d1 with company := jsOr d1.company emp.organization,
                    title := jsOr d1.title emp.role }
        | [] => d1
      let d3 := { d2 with education := d2.education ++ oc.data.educations }
      (d3, st.2 ++ [{ source := "orcid", url := oc.url, verified := true }])
    | none => st
  else st

/-- First-non-empty fill of the four fields the simple web-profile
sources contribute. -/
def webFill (d : ContactData) (w : WebProfileData) : ContactData :=
  { d with
      name := jsOr d.name w.name,
      bio := jsOr d.bio w.bio,
      location := jsOr d.location w.location,
      websiteUrl := jsOr d.websiteUrl w.websiteUrl }

/-- The Stack Exchange block of enrichContact, guarded on the raw name
being truthy. -/
def stackStep (raw : ContactData) (env : EnrichEnv) (st : EnrichState) : EnrichState :=
  if raw.name ≠ "" then
    match env.stackLookup with
    | some sx =>
      (webFill st.1 sx.data,
       st.2 ++ [{ source := "stackoverflow", url := sx.url, verified := true }])
    | none => st
  else st

/-- The Wikipedia/Wikidata block of enrichContact, guarded on the raw
name being truthy; only the name is filled. -/
def wikiStep (raw : ContactData) (env : EnrichEnv) (st : EnrichState) : EnrichState :=
  if raw.name ≠ "" then
    match env.wikiLookup with
    | some w =>
      ({ st.1 with name := jsOr st.1.name w.data.name },
       st.2 ++ [{ source := "wikidata", url := w.url, verified := true }])
    | none => st
  else st

/-- The Dev.to block of enrichContact, guarded on the raw name being
truthy (the lookup slug is derived from the raw name). -/
def devtoStep (raw : ContactData) (env : EnrichEnv) (st : EnrichState) : EnrichState :=
  if raw.name ≠ "" then
    match env.devtoLookup with
    | some dv =>
      (webFill st.1 dv.data,
       st.2 ++ [{ source := "devto", url := dv.url, verified := true }])
    | none => st
  else st

/-- The GitLab block of enrichContact, guarded on the resolved GitHub
username being truthy (the same username is reused). -/
def gitlabStep (raw : ContactData) (env : EnrichEnv) (st : EnrichState) : EnrichState :=
  if ghUsernameOf raw env ≠ "" then
    match env.gitlabLookup with
    | some gl =>
      (webFill st.1 gl.data,
       st.2 ++ [{ source := "gitlab", url := gl.url, verified := true }])
    | none => st
  else st

/-- The provenance record for the uploaded document itself, unshifted to
the front of the sources array after all lookups. -/
def documentSource : EnrichmentSource :=
  { source := "document", url := "uploaded_document", verified := false }

/-- The merged profile plus bookkeeping returned by enrichContact. -/
structure EnrichedResult where
  data : ContactData
  sources : List EnrichmentSource
  confidenceScore : ℚ
deriving DecidableEq, Repr

/-- The merge pipeline enrichContact(extractedData, githubToken): start
from a copy of the raw data with an empty sources array, run the GitHub,
ORCID, Stack Exchange, Wikidata, Dev.to and GitLab blocks in that order,
unshift the document provenance record, and score the result. -/
def enrichContact (raw : ContactData) (env : EnrichEnv) : EnrichedResult :=
  let st := gitlabStep raw env (devtoStep raw env (wikiStep raw env
    (stackStep raw env (orcidStep raw env (githubStep raw env (raw, []))))))
  let sources := documentSource :: st.2
  { data := st.1, sources := sources,
    confidenceScore := calculateConfidenceScore sources st.1 }

/-- The GitHub lookup outcome the run actually uses: the env outcome when
a username resolved, none otherwise. -/
def ghEff (raw : ContactData) (env : EnrichEnv) : Option GithubSource :=
  if ghUsernameOf raw env ≠ "" then env.githubLookup else none

/-- The ORCID lookup outcome the run actually uses. -/
def orcidEff (raw : ContactData) (env : EnrichEnv) : Option OrcidSource :=
  if orcidIdOf raw env ≠ "" then env.orcidLookup else none

/-- The Stack Exchange lookup outcome the run actually uses. -/
def stackEff (raw : ContactData) (env : EnrichEnv) : Option WebProfileSource :=
  if raw.name ≠ "" then env.stackLookup else none

/-- The Wikidata lookup outcome the run actually uses. -/
def wikiEff (raw : ContactData) (env : EnrichEnv) : Option WebProfileSource :=
  if raw.name ≠ "" then env.wikiLookup else none

/-- The Dev.to lookup outcome the run actually uses. -/
def devtoEff (raw : ContactData) (env : EnrichEnv) : Option WebProfileSource :=
  if raw.name ≠ "" then env.devtoLookup else none

/-- The GitLab lookup outcome the run actually uses. -/
def gitlabEff (raw : ContactData) (env : EnrichEnv) : Option WebProfileSource :=
  if ghUsernameOf raw env ≠ "" then env.gitlabLookup else none

/-- The string a GitHub field contributes to the merge: the payload field
when the lookup is used, the empty (falsy) string otherwise. -/
def ghStr (raw : ContactData) (env : EnrichEnv) (f : GithubData → String) : String :=
  match ghEff raw env with
  | some g => f g.data
  | none => ""

/-- The string an ORCID profile field contributes to the merge. -/
def orcStr (raw : ContactData) (env : EnrichEnv) (f : OrcidData → String) : String :=
  match orcidEff raw env with
  | some oc => f oc.data
  | none => ""

/-- The string the head ORCID employment contributes to the merge. -/
def orcEmpStr (raw : ContactData) (env : EnrichEnv) (f : OrcidEmployment → String) : String :=
  match orcidEff raw env with
  | some oc =>
    match oc.data.employments with
    | emp :: _ => f emp
    | [] => ""
  | none => ""

/-- The string a simple web-profile field contributes to the merge. -/
def webStr (o : Option WebProfileSource) (f : WebProfileData → String) : String :=
  match o with
  | some w => f w.data
  | none => ""

/-- Raw profile carrying a capitalised GitHub profile URL; the canonical
URL returned by the lookup differs from it. -/
def rawGh : ContactData := { emptyContact with githubUrl := "https://github.com/JaneDoe" }

/-- GitHub lookup outcome whose canonical html_url is the lower-case
form of the profile URL carried by rawGh. -/
def ghCanon : GithubSource := { url := "https://github.com/janedoe" }

/-- Environment where only the GitHub lookup succeeds, with ghCanon. -/
def envGh : EnrichEnv := { githubLookup := some ghCanon }

/-- Raw profile carrying an ORCID profile URL and one education entry. -/
def rawEdu : ContactData :=
  { emptyContact with orcidUrl := "https://orcid.org/0000-0002-1825-0097",
                      education := ["X"] }

/-- ORCID lookup outcome carrying the same education entry again. -/
def orcidDup : OrcidSource :=
  { url := "https://orcid.org/0000-0002-1825-0097",
    data := { educations := ["X"] } }

/-- Environment where only the ORCID lookup succeeds, with orcidDup. -/
def envEdu : EnrichEnv := { orcidLookup := some orcidDup }

/-- Lookup of a key in a stored JSON object (modelled as an association
list with unique keys, where the first binding wins, matching JS property
lookup). -/
def objLookup (k : String) (o : List (String × String)) : Option String :=
  (o.find? (fun p => p.1 == k)).map (fun p => p.2)

/-- Does the stored object bind the key? -/
def objHasKey (k : String) (o : List (String × String)) : Bool :=
  o.any (fun p => p.1 == k)

/-- The JS shallow spread on objects { ...old, ...new }: every binding of
new, plus the bindings of old whose keys new does not rebind. -/
def objMerge (old new : List (String × String)) : List (String × String) :=
  old.filter (fun p => !objHasKey p.1 new) ++ new

/-- The update the orchestrator applies to the matched Contact on a
duplicate verdict: sources extended with the new run's sources,
enrichedData shallow-merged with the new object spread last. -/
def mergeDuplicate (enriched : EnrichedResult) (enrichedObj : List (String × String))
    (c : StoredContact) : StoredContact :=
  { c with
      sources := c.sources ++ enriched.sources,
      enrichedData := objMerge c.enrichedData enrichedObj }

/-- The StoredContact row storage.createContact builds at the end of a
run: the merged fields flattened, with the literal name "Unknown"
substituted when the merged name is falsy. -/
def contactFromEnriched (newId : String) (enriched : EnrichedResult)
    (enrichedObj : List (String × String)) (score : ℚ) : StoredContact :=
  { id := newId,
    name := jsOr enriched.data.name "Unknown",
    email := enriched.data.email,
    phone := enriched.data.phone,
    company := enriched.data.company,
    title := enriched.data.title,
    location := enriched.data.location,
    confidenceScore := score,
    sources := enriched.sources,
    enrichedData := enrichedObj }

/-- Observable outcome of the pipeline tail: the contact table after the
run, the document status written, and the created contact if any. -/
structure PhaseResult where
  contacts : List StoredContact
  docStatus : String
  createdContact : Option StoredContact
deriving Repr

/-- The tail of processDocumentExtraction after enrichment succeeded
(routes.ts): when a dedup API key is present, run deduplication over the
user's contacts; on a match with a truthy duplicateId, fetch the matched
contact and, when found, update it with mergeDuplicate, mark the document
completed and return without creating anything (the update-by-id is
modelled as a map over the table); otherwise fall through to creation,
where the confidence score is the enrichment score with falsy values
defaulted to 0.85 and then, when the key is present, recomputed by
improveConfidenceScore, and the new contact row is appended. The stored
enrichedData object view of the merged profile is passed in as
enrichedObj. -/
def processAfterEnrichment (hfKey : Option String) (extractedData : ContactData)
    (enriched : EnrichedResult) (enrichedObj : List (String × String))
    (contacts : List StoredContact) (svc : String → String → HFOutcome)
    (newId : String) : PhaseResult :=
  match hfKey with
  | some key =>
    let r := deduplicateContactData enriched.data.textFields contacts svc
    if r.isDuplicate ∧ r.duplicateId.getD "" ≠ "" then
      match contacts.find? (fun c => c.id == r.duplicateId.getD "") with
      | some _ =>
        { contacts := contacts.map (fun c =>
            if c.id = r.duplicateId.getD "" then mergeDuplicate enriched enrichedObj c else c),
          docStatus := "completed", createdContact := none }
      | none =>
        { contacts := contacts, docStatus := "completed", createdContact := none }
    else
      let score := improveConfidenceScore extractedData enriched.data enriched.sources key
      let newContact := contactFromEnriched newId enriched enrichedObj score
      { contacts := contacts ++ [newContact], docStatus := "completed",
        createdContact := some newContact }
  | none =>
    let score := if enriched.confidenceScore = 0 then 0.85 else enriched.confidenceScore
    let newContact := contactFromEnriched newId enriched enrichedObj score
    { contacts := contacts ++ [newContact], docStatus := "completed",
      createdContact := some newContact }

/-- A concrete enrichment result (all-empty profile, document provenance
only) used to exercise the pipeline tail. -/
def enrichedX : EnrichedResult :=
  { data := emptyContact, sources := [documentSource], confidenceScore := 1/2 }

/-- Claim C1 (counterexample): on a profile with a phone number and a
pattern-violating email, the code scorer pays a 0.05 phone bonus the
claimed formula does not have and a 0.05 email bonus the claimed formula
withholds for want of the pattern, so the two differ. -/
theorem calculateConfidenceScore_ne_claimed :
    calculateConfidenceScore [] phoneBadEmailContact
      ≠ claimedConfidenceScore [] phoneBadEmailContact := by
  norm_num [calculateConfidenceScore, claimedConfidenceScore, phoneBadEmailContact, emptyContact,
    canonicalFields, min_def, List.filter,
    (by decide : jsPresent "555-0100" = true), (by decide : jsPresent "not-an-email" = true),
    (by decide : validEmail "not-an-email" = false), (by decide : jsPresent "" = false)]

/-- Claim C1 (amended): the enrichment-engine confidence score equals the
sum of: 0.5, plus 0.15 per verified source, plus 0.2 times the fraction of
the 7 canonical fields that are non-empty, plus 0.05 iff email is present
(with no pattern check), plus 0.05 iff phone is present, plus 0.05 each
for the presence of githubUrl, linkedinUrl and orcidUrl, with no other
additive terms, capped at 1.0. -/
theorem calculateConfidenceScore_eq_termSum :
    ∀ (sources : List EnrichmentSource) (data : ContactData),
      calculateConfidenceScore sources data = min (confidenceScoreTerms sources data).sum 1.0 := by
  intro sources data
  unfold calculateConfidenceScore confidenceScoreTerms
  simp only [List.sum_cons, List.sum_nil]
  congr 1
  ring

/-- Claim C5: the enrichment-engine confidence score always lies in [0, 1],
and the all-empty profile with no sources scores exactly 0.5. -/
theorem calculateConfidenceScore_bounds :
    (∀ (sources : List EnrichmentSource) (data : ContactData),
        0 ≤ calculateConfidenceScore sources data ∧ calculateConfidenceScore sources data ≤ 1)
    ∧ calculateConfidenceScore [] emptyContact = 0.5 := by
  constructor
  · intro sources data
    constructor
    · unfold calculateConfidenceScore
      have hif : ∀ b : Bool, (0 : ℚ) ≤ (if b then 0.05 else 0) := by
        intro b; cases b <;> norm_num
      refine le_min ?_ (by norm_num)
      refine add_nonneg (add_nonneg (add_nonneg (add_nonneg (add_nonneg
        (add_nonneg (add_nonneg (by norm_num) ?_) ?_) (hif _)) (hif _)) (hif _)) (hif _)) (hif _)
      · exact mul_nonneg (Nat.cast_nonneg _) (by norm_num)
      · exact mul_nonneg (div_nonneg (Nat.cast_nonneg _) (by norm_num)) (by norm_num)
    · unfold calculateConfidenceScore
      exact le_trans (min_le_right _ _) (by norm_num)
  · norm_num [calculateConfidenceScore, emptyContact, canonicalFields, min_def, List.filter,
      (by decide : jsPresent "" = false)]

/-- Claim C4 (counterexample): the two confidence scorers disagree — on a
profile whose only datum is a phone number (and with no sources), the
enrichment-engine scorer pays its phone bonus while the dedup-module
scorer has none, so the scores differ. -/
theorem scorers_differ :
    calculateConfidenceScore [] phoneOnlyContact
      ≠ improveConfidenceScore emptyContact phoneOnlyContact [] "" := by
  norm_num [calculateConfidenceScore, improveConfidenceScore, phoneOnlyContact, emptyContact,
    canonicalFields, min_def, List.filter,
    (by decide : jsPresent "555-0100" = true), (by decide : jsPresent "" = false)]

/-- Claim C4 (amended): the two scorers agree exactly on the inputs where
their differing terms vanish together: no phone, email either absent or
matching the dedup-module regex, and fewer than 3 sources. On other
inputs they can differ (see the counterexample). -/
theorem scorers_agree (extractedData : ContactData) (hfApiKey : String)
    (sources : List EnrichmentSource) (data : ContactData)
    (hphone : data.phone = "")
    (hemail : data.email = "" ∨ validEmail data.email = true)
    (hlen : sources.length < 3) :
    improveConfidenceScore extractedData data sources hfApiKey
      = calculateConfidenceScore sources data := by
  unfold improveConfidenceScore calculateConfidenceScore
  have hlen' : ¬ (3 ≤ sources.length) := by omega
  have hphone' : jsPresent data.phone = false := by simp [jsPresent, hphone]
  have hemail' : (if jsPresent data.email && validEmail data.email then (0.05 : ℚ) else 0)
      = (if jsPresent data.email then (0.05 : ℚ) else 0) := by
    rcases hemail with he | hv
    · simp [jsPresent, he]
    · have hp : jsPresent data.email = true := by
        by_cases he : data.email = ""
        · rw [he] at hv; exact absurd hv (by decide)
        · simp [jsPresent, he]
      simp [hp, hv]
  rw [hemail', if_neg hlen']
  rw [hphone']
  simp only [Bool.false_eq_true, if_false]
  congr 1
  ring

/-- Claim C4 (amended, witness): at a concrete profile holding only a
well-formed email the hypotheses hold and the two scores coincide. -/
theorem scorers_agree_witness :
    emailOnlyContact.phone = "" ∧ validEmail emailOnlyContact.email = true
      ∧ ([] : List EnrichmentSource).length < 3
      ∧ improveConfidenceScore emptyContact emailOnlyContact [] ""
          = calculateConfidenceScore [] emailOnlyContact :=
  ⟨by decide, by decide, by decide,
    scorers_agree emptyContact "" [] emailOnlyContact (by decide)
      (Or.inr (by decide)) (by decide)⟩

/-- Helper: a scan over contacts all of whose similarities are at or
below the threshold returns the not-a-duplicate result. -/
theorem dedupScanLoop_of_all_le (svc : String → String → HFOutcome) (t : String)
    (l : List StoredContact)
    (h : ∀ c ∈ l, calculateTextSimilarity (svc t (createContactText c.textFields)) ≤ 0.85) :
    dedupScanLoop svc t l = { isDuplicate := false, confidence := 1.0 } := by
  induction l with
  | nil => rfl
  | cons c rest ih =>
    have hc := h c (List.mem_cons_self c rest)
    unfold dedupScanLoop
    rw [if_neg (by exact not_lt_of_le hc)]
    exact ih (fun x hx => h x (List.mem_cons_of_mem c hx))

/-- Helper: if every contact strictly before index i scores at or below
the threshold and the contact at i scores strictly above it, the scan
stops at i and reports that contact with its similarity. -/
theorem dedupScanLoop_first_over (svc : String → String → HFOutcome) (t : String) :
    ∀ (l : List StoredContact) (i : ℕ) (hi : i < l.length),
      (∀ j (hj : j < i),
        calculateTextSimilarity
          (svc t (createContactText (l.get ⟨j, lt_trans hj hi⟩).textFields)) ≤ 0.85) →
      0.85 < calculateTextSimilarity (svc t (createContactText (l.get ⟨i, hi⟩).textFields)) →
      dedupScanLoop svc t l =
        { isDuplicate := true, duplicateId := some (l.get ⟨i, hi⟩).id,
          confidence :=
            calculateTextSimilarity (svc t (createContactText (l.get ⟨i, hi⟩).textFields)) } := by
  intro l
  induction l with
  | nil => intro i hi; exact absurd hi (Nat.not_lt_zero i)
  | cons c rest ih =>
    intro i hi hbefore hat
    cases i with
    | zero =>
      unfold dedupScanLoop
      rw [if_pos (by exact hat)]
      rfl
    | succ j =>
      have hc : calculateTextSimilarity (svc t (createContactText c.textFields)) ≤ 0.85 :=
        hbefore 0 (Nat.succ_pos j)
      unfold dedupScanLoop
      rw [if_neg (by exact not_lt_of_le hc)]
      exact ih j (Nat.lt_of_succ_lt_succ hi)
        (fun k hk => hbefore (k + 1) (Nat.succ_lt_succ hk)) hat

/-- Claim C2: deduplication returns not-a-duplicate with confidence 1.0
on an empty existing list; otherwise it scans in order and reports the
first contact whose similarity strictly exceeds 0.85 (with that contact's
id and similarity), and returns not-a-duplicate with confidence 1.0 when
every scanned contact is at or below 0.85 (so similarity exactly 0.85 or
0.0 never matches). -/
theorem deduplicateContactData_spec (newData : TextFields)
    (existing : List StoredContact) (svc : String → String → HFOutcome) :
    (existing = [] →
      deduplicateContactData newData existing svc
        = { isDuplicate := false, confidence := 1.0 })
    ∧ (∀ (i : ℕ) (hi : i < existing.length),
        (∀ j (hj : j < i), simOf svc newData (existing.get ⟨j, lt_trans hj hi⟩) ≤ 0.85) →
        0.85 < simOf svc newData (existing.get ⟨i, hi⟩) →
        deduplicateContactData newData existing svc
          = { isDuplicate := true, duplicateId := some (existing.get ⟨i, hi⟩).id,
              confidence := simOf svc newData (existing.get ⟨i, hi⟩) })
    ∧ ((∀ c ∈ existing, simOf svc newData c ≤ 0.85) →
        deduplicateContactData newData existing svc
          = { isDuplicate := false, confidence := 1.0 }) := by
  refine ⟨?_, ?_, ?_⟩
  · intro h; subst h; rfl
  · intro i hi hbefore hat
    have hne : ¬ existing.isEmpty := by
      cases existing with
      | nil => exact absurd hi (Nat.not_lt_zero i)
      | cons c rest => simp [List.isEmpty]
    unfold deduplicateContactData
    rw [if_neg hne]
    exact dedupScanLoop_first_over svc (createContactText newData) existing i hi hbefore hat
  · intro hall
    unfold deduplicateContactData
    by_cases he : existing.isEmpty
    · rw [if_pos he]
    · rw [if_neg he]
      exact dedupScanLoop_of_all_le svc (createContactText newData) existing hall

/-- Claim C2 (witness): with the constant 0.95 service, the first contact
of [storedA, storedB] is already over the threshold, so the scan reports
storedA (first-over-threshold) with confidence 0.95. -/
theorem deduplicateContactData_spec_witness :
    0 < ([storedA, storedB] : List StoredContact).length
    ∧ 0.85 < simOf svcConst dedupCandidate storedA
    ∧ deduplicateContactData dedupCandidate [storedA, storedB] svcConst
        = { isDuplicate := true, duplicateId := some "contact-a", confidence := 19/20 } := by
  have hgt : (0.85 : ℚ) < simOf svcConst dedupCandidate storedA := by
    norm_num [simOf, svcConst, calculateTextSimilarity]
  refine ⟨by norm_num, hgt, ?_⟩
  exact (deduplicateContactData_spec dedupCandidate [storedA, storedB] svcConst).2.1
    0 (by norm_num) (fun j hj => absurd hj (Nat.not_lt_zero j)) hgt

/-- Claim C7: when every similarity call fails (throws or non-ok
response), every comparison is scored 0 and deduplication — which never
propagates an exception in the first place, both failure modes being
absorbed inside calculateTextSimilarity — returns not-a-duplicate with
confidence 1.0, regardless of the contact list. -/
theorem deduplicateContactData_failSafe (newData : TextFields)
    (existing : List StoredContact) (svc : String → String → HFOutcome)
    (h : ∀ a b, hfFailed (svc a b) = true) :
    (∀ a b, calculateTextSimilarity (svc a b) = 0)
    ∧ deduplicateContactData newData existing svc
        = { isDuplicate := false, confidence := 1.0 } := by
  have hzero : ∀ a b, calculateTextSimilarity (svc a b) = 0 := by
    intro a b
    have hf := h a b
    cases hsvc : svc a b with
    | raises => rfl
    | response ok body =>
      rw [hsvc] at hf
      cases ok with
      | false => rfl
      | true => exact absurd hf (by simp [hfFailed])
  refine ⟨hzero, ?_⟩
  unfold deduplicateContactData
  by_cases he : existing.isEmpty
  · rw [if_pos he]
  · rw [if_neg he]
    refine dedupScanLoop_of_all_le _ _ _ ?_
    intro c _
    rw [hzero]
    norm_num

/-- Claim C7 (witness): with a service that always throws and a nonempty
contact list, every comparison scores 0 and the result is
not-a-duplicate. -/
theorem deduplicateContactData_failSafe_witness :
    (∀ a b, calculateTextSimilarity (svcRaises a b) = 0)
    ∧ deduplicateContactData dedupCandidate [storedA, storedB] svcRaises
        = { isDuplicate := false, confidence := 1.0 } :=
  deduplicateContactData_failSafe dedupCandidate [storedA, storedB]
    svcRaises (fun _ _ => rfl)

/-- Helper: filling from an empty (falsy) contribution is a no-op. -/
theorem jsOr_empty (a : String) : jsOr a "" = a := by
  by_cases h : a = "" <;> simp [jsOr, h]

/-- Helper: jsOr is associative, so a left-nested fill chain can be read
as one first-non-empty choice over the flat list of contributions. -/
theorem jsOr_assoc (a b c : String) : jsOr (jsOr a b) c = jsOr a (jsOr b c) := by
  by_cases ha : a = "" <;> by_cases hb : b = "" <;> simp [jsOr, ha, hb]

/-- Helper: set-style de-duplication preserves membership. -/
theorem mem_jsSetDedup (x : String) (l : List String) : x ∈ jsSetDedup l ↔ x ∈ l := by
  induction l using jsSetDedup.induct with
  | case1 => simp [jsSetDedup]
  | case2 y ys ih =>
    rw [jsSetDedup]
    simp only [List.mem_cons, ih, List.mem_filter, decide_eq_true_eq]
    by_cases hxy : x = y
    · simp [hxy]
    · simp [hxy]

/-- Helper: the GitHub block, expressed field-by-field through the
effective lookup outcome. -/
theorem githubStep_eq (raw : ContactData) (env : EnrichEnv) (st : EnrichState) :
    githubStep raw env st =
      ({ st.1 with
          name := jsOr st.1.name (ghStr raw env GithubData.name),
          email := jsOr st.1.email (ghStr raw env GithubData.email),
          company := jsOr st.1.company (ghStr raw env GithubData.company),
          location := jsOr st.1.location (ghStr raw env GithubData.location),
          bio := jsOr st.1.bio (ghStr raw env GithubData.bio),
          websiteUrl := jsOr st.1.websiteUrl (ghStr raw env GithubData.websiteUrl),
          githubUrl := (match ghEff raw env with
            | some g => g.url
            | none => st.1.githubUrl),
          repositories := (match ghEff raw env with
            | some g => g.data.repositories
            | none => st.1.repositories),
          skills := (match ghEff raw env with
            | some g => jsSetDedup (st.1.skills ++ g.data.skills)
            | none => st.1.skills) },
       st.2 ++ (match ghEff raw env with
        | some g => [{ source := "github", url := g.url, verified := true }]
        | none => [])) := by
  unfold githubStep ghStr ghEff
  by_cases h : ghUsernameOf raw env ≠ ""
  · simp only [if_pos h]
    cases hg : env.githubLookup with
    | some gh => rfl
    | none => simp [jsOr_empty] <;> rfl
  · simp only [if_neg h]
    simp [jsOr_empty] <;> rfl

/-- Helper: the ORCID block, expressed field-by-field through the
effective lookup outcome. -/
theorem orcidStep_eq (raw : ContactData) (env : EnrichEnv) (st : EnrichState) :
    orcidStep raw env st =
      ({ st.1 with
          name := jsOr st.1.name (orcStr raw env OrcidData.name),
          bio := jsOr st.1.bio (orcStr raw env OrcidData.bio),
          company := jsOr st.1.company (orcEmpStr raw env OrcidEmployment.organization),
          title := jsOr st.1.title (orcEmpStr raw env OrcidEmployment.role),
          orcidUrl := (match orcidEff raw env with
            | some oc => oc.url
            | none => st.1.orcidUrl),
          education := st.1.education ++ (match orcidEff raw env with
            | some oc => oc.data.educations
            | none => []) },
       st.2 ++ (match orcidEff raw env with
        | some oc => [{ source := "orcid", url := oc.url, verified := true }]
        | none => [])) := by
  unfold orcidStep orcStr orcEmpStr orcidEff
  by_cases h : orcidIdOf raw env ≠ ""
  · simp only [if_pos h]
    cases ho : env.orcidLookup with
    | some oc =>
      cases hemp : oc.data.employments with
      | nil => simp [hemp, jsOr_empty] <;> rfl
      | cons emp tl => simp [hemp] <;> rfl
    | none => simp [jsOr_empty] <;> rfl
  · simp only [if_neg h]
    simp [jsOr_empty] <;> rfl

/-- Helper: the Stack Exchange block, expressed through the effective
lookup outcome. -/
theorem stackStep_eq (raw : ContactData) (env : EnrichEnv) (st : EnrichState) :
    stackStep raw env st =
      ({ st.1 with
          name := jsOr st.1.name (webStr (stackEff raw env) WebProfileData.name),
          bio := jsOr st.1.bio (webStr (stackEff raw env) WebProfileData.bio),
          location := jsOr st.1.location (webStr (stackEff raw env) WebProfileData.location),
          websiteUrl := jsOr st.1.websiteUrl (webStr (stackEff raw env) WebProfileData.websiteUrl) },
       st.2 ++ (match stackEff raw env with
        | some sx => [{ source := "stackoverflow", url := sx.url, verified := true }]
        | none => [])) := by
  unfold stackStep webFill webStr stackEff
  by_cases h : raw.name ≠ ""
  · simp only [if_pos h]
    cases hs : env.stackLookup with
    | some sx => rfl
    | none => simp [jsOr_empty] <;> rfl
  · simp only [if_neg h]
    simp [jsOr_empty] <;> rfl

/-- Helper: the Wikidata block, expressed through the effective lookup
outcome. -/
theorem wikiStep_eq (raw : ContactData) (env : EnrichEnv) (st : EnrichState) :
    wikiStep raw env st =
      ({ st.1 with
          name := jsOr st.1.name (webStr (wikiEff raw env) WebProfileData.name) },
       st.2 ++ (match wikiEff raw env with
        | some w => [{ source := "wikidata", url := w.url, verified := true }]
        | none => [])) := by
  unfold wikiStep webStr wikiEff
  by_cases h : raw.name ≠ ""
  · simp only [if_pos h]
    cases hw : env.wikiLookup with
    | some w => rfl
    | none => simp [jsOr_empty] <;> rfl
  · simp only [if_neg h]
    simp [jsOr_empty] <;> rfl

/-- Helper: the Dev.to block, expressed through the effective lookup
outcome. -/
theorem devtoStep_eq (raw : ContactData) (env : EnrichEnv) (st : EnrichState) :
    devtoStep raw env st =
      ({ st.1 with
          name := jsOr st.1.name (webStr (devtoEff raw env) WebProfileData.name),
          bio := jsOr st.1.bio (webStr (devtoEff raw env) WebProfileData.bio),
          location := jsOr st.1.location (webStr (devtoEff raw env) WebProfileData.location),
          websiteUrl := jsOr st.1.websiteUrl (webStr (devtoEff raw env) WebProfileData.websiteUrl) },
       st.2 ++ (match devtoEff raw env with
        | some dv => [{ source := "devto", url := dv.url, verified := true }]
        | none => [])) := by
  unfold devtoStep webFill webStr devtoEff
  by_cases h : raw.name ≠ ""
  · simp only [if_pos h]
    cases hd : env.devtoLookup with
    | some dv => rfl
    | none => simp [jsOr_empty] <;> rfl
  · simp only [if_neg h]
    simp [jsOr_empty] <;> rfl

/-- Helper: the GitLab block, expressed through the effective lookup
outcome. -/
theorem gitlabStep_eq (raw : ContactData) (env : EnrichEnv) (st : EnrichState) :
    gitlabStep raw env st =
      ({ st.1 with
          name := jsOr st.1.name (webStr (gitlabEff raw env) WebProfileData.name),
          bio := jsOr st.1.bio (webStr (gitlabEff raw env) WebProfileData.bio),
          location := jsOr st.1.location (webStr (gitlabEff raw env) WebProfileData.location),
          websiteUrl := jsOr st.1.websiteUrl (webStr (gitlabEff raw env) WebProfileData.websiteUrl) },
       st.2 ++ (match gitlabEff raw env with
        | some gl => [{ source := "gitlab", url := gl.url, verified := true }]
        | none => [])) := by
  unfold gitlabStep webFill webStr gitlabEff
  by_cases h : ghUsernameOf raw env ≠ ""
  · simp only [if_pos h]
    cases hg : env.gitlabLookup with
    | some gl => rfl
    | none => simp [jsOr_empty] <;> rfl
  · simp only [if_neg h]
    simp [jsOr_empty] <;> rfl

/-- Claim C3 (counterexample): a raw profile whose githubUrl is already
populated has it overwritten by the canonical profile URL of a successful
GitHub lookup — a later-precedence source replacing an
earlier-precedence value. -/
theorem enrichContact_overwrites_githubUrl :
    rawGh.githubUrl ≠ ""
    ∧ (enrichContact rawGh envGh).data.githubUrl = "https://github.com/janedoe"
    ∧ (enrichContact rawGh envGh).data.githubUrl ≠ rawGh.githubUrl := by
  decide

/-- Claim C3 (amended): every scalar field except the canonical-URL
fields is merged first-non-empty-wins with the raw profile first and the
sources in their fixed collection order (GitHub, ORCID, Stack Exchange,
Wikidata, Dev.to, GitLab) next, restricted to the sources that supply
that field — so a value populated by an earlier-precedence source is
never overwritten; the two canonical-URL fields githubUrl and orcidUrl
are instead overwritten with the source's canonical URL whenever the
corresponding lookup succeeds. The company behaviour of the original
claim (raw "A" beats source "B"; raw absent takes "B") is the company
equation below read at those inputs. -/
theorem enrichContact_scalarMergePolicy (raw : ContactData) (env : EnrichEnv) :
    ((enrichContact raw env).data.name
      = jsOr raw.name (jsOr (ghStr raw env GithubData.name)
          (jsOr (orcStr raw env OrcidData.name)
            (jsOr (webStr (stackEff raw env) WebProfileData.name)
              (jsOr (webStr (wikiEff raw env) WebProfileData.name)
                (jsOr (webStr (devtoEff raw env) WebProfileData.name)
                  (webStr (gitlabEff raw env) WebProfileData.name)))))))
    ∧ ((enrichContact raw env).data.email
      = jsOr raw.email (ghStr raw env GithubData.email))
    ∧ ((enrichContact raw env).data.phone = raw.phone)
    ∧ ((enrichContact raw env).data.company
      = jsOr raw.company (jsOr (ghStr raw env GithubData.company)
          (orcEmpStr raw env OrcidEmployment.organization)))
    ∧ ((enrichContact raw env).data.title
      = jsOr raw.title (orcEmpStr raw env OrcidEmployment.role))
    ∧ ((enrichContact raw env).data.location
      = jsOr raw.location (jsOr (ghStr raw env GithubData.location)
          (jsOr (webStr (stackEff raw env) WebProfileData.location)
            (jsOr (webStr (devtoEff raw env) WebProfileData.location)
              (webStr (gitlabEff raw env) WebProfileData.location)))))
    ∧ ((enrichContact raw env).data.bio
      = jsOr raw.bio (jsOr (ghStr raw env GithubData.bio)
          (jsOr (orcStr raw env OrcidData.bio)
            (jsOr (webStr (stackEff raw env) WebProfileData.bio)
              (jsOr (webStr (devtoEff raw env) WebProfileData.bio)
                (webStr (gitlabEff raw env) WebProfileData.bio))))))
    ∧ ((enrichContact raw env).data.websiteUrl
      = jsOr raw.websiteUrl (jsOr (ghStr raw env GithubData.websiteUrl)
          (jsOr (webStr (stackEff raw env) WebProfileData.websiteUrl)
            (jsOr (webStr (devtoEff raw env) WebProfileData.websiteUrl)
              (webStr (gitlabEff raw env) WebProfileData.websiteUrl)))))
    ∧ ((enrichContact raw env).data.linkedinUrl = raw.linkedinUrl)
    ∧ ((enrichContact raw env).data.githubUrl
      = (match ghEff raw env with
          | some g => g.url
          | none => raw.githubUrl))
    ∧ ((enrichContact raw env).data.orcidUrl
      = (match orcidEff raw env with
          | some oc => oc.url
          | none => raw.orcidUrl)) := by
  unfold enrichContact
  rw [githubStep_eq, orcidStep_eq, stackStep_eq, wikiStep_eq, devtoStep_eq, gitlabStep_eq]
  refine ⟨?_, ?_, ?_, ?_, ?_, ?_, ?_, ?_, ?_, ?_, ?_⟩ <;>
    simp [jsOr_assoc]

/-- Claim C6 (counterexample): with the raw profile already carrying
education entry "X" and the ORCID lookup returning the same entry, the
merged education list is ["X", "X"] — the entries are concatenated, not
de-duplicated. -/
theorem enrichContact_education_duplicated :
    (enrichContact rawEdu envEdu).data.education = ["X", "X"]
    ∧ ¬ (enrichContact rawEdu envEdu).data.education.Nodup := by
  decide

/-- Claim C6 (amended): the merged skills list is the union of the raw
skills and the GitHub-supplied skills, de-duplicated by exact string
equality keeping first occurrences, whenever the GitHub lookup
contributes (and the raw list unchanged otherwise); the merged education
list is the raw list concatenated with the ORCID-supplied entries — its
members are exactly the union, but duplicate entries are preserved, not
de-duplicated. -/
theorem enrichContact_listMerge (raw : ContactData) (env : EnrichEnv) :
    ((enrichContact raw env).data.skills
      = (match ghEff raw env with
          | some g => jsSetDedup (raw.skills ++ g.data.skills)
          | none => raw.skills))
    ∧ ((enrichContact raw env).data.education
      = raw.education ++ (match orcidEff raw env with
          | some oc => oc.data.educations
          | none => []))
    ∧ (∀ x, x ∈ (enrichContact raw env).data.skills
        ↔ x ∈ raw.skills
          ∨ x ∈ (match ghEff raw env with
              | some g => g.data.skills
              | none => ([] : List String)))
    ∧ (∀ x, x ∈ (enrichContact raw env).data.education
        ↔ x ∈ raw.education
          ∨ x ∈ (match orcidEff raw env with
              | some oc => oc.data.educations
              | none => ([] : List String))) := by
  have hskills : (enrichContact raw env).data.skills
      = (match ghEff raw env with
          | some g => jsSetDedup (raw.skills ++ g.data.skills)
          | none => raw.skills) := by
    unfold enrichContact
    rw [githubStep_eq, orcidStep_eq, stackStep_eq, wikiStep_eq, devtoStep_eq, gitlabStep_eq]
  have hedu : (enrichContact raw env).data.education
      = raw.education ++ (match orcidEff raw env with
          | some oc => oc.data.educations
          | none => []) := by
    unfold enrichContact
    rw [githubStep_eq, orcidStep_eq, stackStep_eq, wikiStep_eq, devtoStep_eq, gitlabStep_eq]
  refine ⟨hskills, hedu, ?_, ?_⟩
  · intro x
    rw [hskills]
    cases ghEff raw env with
    | some g => simp [mem_jsSetDedup]
    | none => simp
  · intro x
    rw [hedu]
    cases orcidEff raw env with
    | some oc => simp
    | none => simp

/-- Claim C9: when no source lookup succeeds, the merged profile equals
the raw profile on every field; only the provenance record for the
uploaded document and the confidence score are added. -/
theorem enrichContact_noLookup_identity (raw : ContactData) (env : EnrichEnv)
    (hg : env.githubLookup = none) (ho : env.orcidLookup = none)
    (hs : env.stackLookup = none) (hw : env.wikiLookup = none)
    (hd : env.devtoLookup = none) (hl : env.gitlabLookup = none) :
    (enrichContact raw env).data = raw
    ∧ (enrichContact raw env).sources = [documentSource]
    ∧ (enrichContact raw env).confidenceScore
        = calculateConfidenceScore [documentSource] raw := by
  refine ⟨?_, ?_, ?_⟩ <;>
    simp [enrichContact, githubStep, orcidStep, stackStep, wikiStep, devtoStep, gitlabStep,
      hg, ho, hs, hw, hd, hl]

/-- Claim C9 (witness): in the all-none environment the merge of a
concrete raw profile returns it unchanged with only the document source
attached. -/
theorem enrichContact_noLookup_identity_witness :
    envNone.githubLookup = none
    ∧ (enrichContact rawGh envNone).data = rawGh
    ∧ (enrichContact rawGh envNone).sources = [documentSource] :=
  ⟨rfl, (enrichContact_noLookup_identity rawGh envNone rfl rfl rfl rfl rfl rfl).1,
    (enrichContact_noLookup_identity rawGh envNone rfl rfl rfl rfl rfl rfl).2.1⟩

/-- Helper: filling with a non-empty default never yields the empty
string. -/
theorem jsOr_default_ne (a d : String) (hd : d ≠ "") : jsOr a d ≠ "" := by
  by_cases ha : a = ""
  · simpa [jsOr, ha] using hd
  · simpa [jsOr, ha] using ha

/-- Helper: a key bound by the new object reads from the new object after
the shallow merge. -/
theorem objLookup_merge_of_hasKey (k : String) (old new : List (String × String))
    (h : objHasKey k new = true) :
    objLookup k (objMerge old new) = objLookup k new := by
  unfold objLookup objMerge
  rw [List.find?_append]
  have hnone : (old.filter (fun p => !objHasKey p.1 new)).find? (fun p => p.1 == k) = none := by
    rw [List.find?_eq_none]
    intro p hp hpk
    have hpmem := List.of_mem_filter hp
    have hk : p.1 = k := by simpa using hpk
    rw [hk, h] at hpmem
    simp at hpmem
  rw [hnone]
  rfl

/-- Helper: a key not bound by the new object keeps its old binding after
the shallow merge. -/
theorem objLookup_merge_of_noKey (k : String) (old new : List (String × String))
    (h : objHasKey k new = false) :
    objLookup k (objMerge old new) = objLookup k old := by
  unfold objLookup objMerge
  rw [List.find?_append]
  have hnew : new.find? (fun p => p.1 == k) = none := by
    rw [List.find?_eq_none]
    intro p hp hpk
    have hk : p.1 = k := by simpa using hpk
    have : objHasKey k new = true := by
      unfold objHasKey
      rw [List.any_eq_true]
      exact ⟨p, hp, by simp [hk]⟩
    rw [this] at h
    simp at h
  have hfilter : (old.filter (fun p => !objHasKey p.1 new)).find? (fun p => p.1 == k)
      = old.find? (fun p => p.1 == k) := by
    induction old with
    | nil => rfl
    | cons p rest ih =>
      rw [List.filter_cons]
      by_cases hf : objHasKey p.1 new = true
      · have hk : (p.1 == k) = false := by
          by_contra hcon
          have : p.1 = k := by
            have := Bool.of_not_eq_false hcon
            simpa using this
          rw [this, h] at hf
          exact Bool.false_ne_true hf
        rw [if_neg (by simp [hf])]
        rw [ih, List.find?_cons, hk]
      · rw [if_pos (by simp [Bool.of_not_eq_true hf])]
        rw [List.find?_cons, List.find?_cons]
        cases hk : (p.1 == k) with
        | true => rfl
        | false => exact ih
  rw [hfilter]
  cases hold : old.find? (fun p => p.1 == k) with
  | some q => rfl
  | none =>
    rw [hnew]
    rfl

/-- Claim C8: when deduplication reports a match whose id is found in the
contact table, the orchestrator marks the document completed, creates no
new Contact, and rewrites the table so that exactly the matched id gets
mergeDuplicate applied; the merged contact's sources array is the old
array with the new run's sources appended — so it grows by exactly the
new source count and the old array is a prefix of it (append-only) — and
its enrichedData reads from the new object on keys the new object binds
and from the old object otherwise (new fields take precedence). -/
theorem duplicateMatch_updates_existing (key : String) (extractedData : ContactData)
    (enriched : EnrichedResult) (enrichedObj : List (String × String))
    (contacts : List StoredContact) (svc : String → String → HFOutcome)
    (newId : String) (i : String) (q : ℚ) (ex : StoredContact)
    (hdedup : deduplicateContactData enriched.data.textFields contacts svc
      = { isDuplicate := true, duplicateId := some i, confidence := q })
    (hi : i ≠ "")
    (hfind : contacts.find? (fun c => c.id == i) = some ex) :
    (processAfterEnrichment (some key) extractedData enriched enrichedObj
        contacts svc newId).docStatus = "completed"
    ∧ (processAfterEnrichment (some key) extractedData enriched enrichedObj
        contacts svc newId).createdContact = none
    ∧ (processAfterEnrichment (some key) extractedData enriched enrichedObj
        contacts svc newId).contacts
      = contacts.map (fun c => if c.id = i then mergeDuplicate enriched enrichedObj c else c)
    ∧ (mergeDuplicate enriched enrichedObj ex).sources = ex.sources ++ enriched.sources
    ∧ (mergeDuplicate enriched enrichedObj ex).sources.length
      = ex.sources.length + enriched.sources.length
    ∧ ex.sources <+: (mergeDuplicate enriched enrichedObj ex).sources
    ∧ (∀ k₀, (objHasKey k₀ enrichedObj = true →
          objLookup k₀ (mergeDuplicate enriched enrichedObj ex).enrichedData
            = objLookup k₀ enrichedObj)
        ∧ (objHasKey k₀ enrichedObj = false →
          objLookup k₀ (mergeDuplicate enriched enrichedObj ex).enrichedData
            = objLookup k₀ ex.enrichedData)) := by
  have hbranch : processAfterEnrichment (some key) extractedData enriched enrichedObj
      contacts svc newId
      = { contacts := contacts.map (fun c =>
            if c.id = i then mergeDuplicate enriched enrichedObj c else c),
          docStatus := "completed", createdContact := none } := by
    simp only [processAfterEnrichment]
    rw [hdedup]
    simp only [Option.getD_some]
    rw [if_pos (by simp [hi])]
    rw [hfind]
  refine ⟨by rw [hbranch], by rw [hbranch], by rw [hbranch], rfl, ?_, ?_, ?_⟩
  · simp [mergeDuplicate]
  · exact List.prefix_append _ _
  · intro k₀
    exact ⟨fun h => objLookup_merge_of_hasKey k₀ ex.enrichedData enrichedObj h,
           fun h => objLookup_merge_of_noKey k₀ ex.enrichedData enrichedObj h⟩

/-- Claim C8 (witness): with the constant over-threshold service, the
single stored contact is matched and updated in place — document
completed, nothing created. -/
theorem duplicateMatch_updates_existing_witness :
    ("contact-a" : String) ≠ ""
    ∧ (processAfterEnrichment (some "k") emptyContact enrichedX [("bio", "fresh")]
        [storedA] svcConst "new-id").docStatus = "completed"
    ∧ (processAfterEnrichment (some "k") emptyContact enrichedX [("bio", "fresh")]
        [storedA] svcConst "new-id").createdContact = none
    ∧ (mergeDuplicate enrichedX [("bio", "fresh")] storedA).sources.length
      = storedA.sources.length + enrichedX.sources.length := by
  have hdedup : deduplicateContactData enrichedX.data.textFields [storedA] svcConst
      = { isDuplicate := true, duplicateId := some "contact-a", confidence := 19/20 } := by
    have h := dedupScanLoop_first_over svcConst
      (createContactText enrichedX.data.textFields) [storedA] 0 (by norm_num)
      (fun j hj => absurd hj (Nat.not_lt_zero j))
      (by norm_num [svcConst, calculateTextSimilarity])
    unfold deduplicateContactData
    rw [if_neg (by simp [List.isEmpty])]
    rw [h]
    norm_num [svcConst, calculateTextSimilarity, storedA]
  have h := duplicateMatch_updates_existing "k" emptyContact enrichedX [("bio", "fresh")]
    [storedA] svcConst "new-id" "contact-a" (19/20) storedA hdedup
    (by decide) (by decide)
  exact ⟨by decide, h.1, h.2.1, h.2.2.2.2.1⟩

/-- Claim C10: every contact the pipeline tail creates has a non-empty
name: the name is the merged name with the literal "Unknown" substituted
when the merged name is empty. -/
theorem createdContact_name_nonEmpty (hfKey : Option String) (extractedData : ContactData)
    (enriched : EnrichedResult) (enrichedObj : List (String × String))
    (contacts : List StoredContact) (svc : String → String → HFOutcome)
    (newId : String) (c : StoredContact)
    (hc : (processAfterEnrichment hfKey extractedData enriched enrichedObj
        contacts svc newId).createdContact = some c) :
    c.name ≠ ""
    ∧ c.name = jsOr enriched.data.name "Unknown"
    ∧ (enriched.data.name = "" → c.name = "Unknown") := by
  have hcontact : c = contactFromEnriched newId enriched enrichedObj c.confidenceScore := by
    cases hfKey with
    | none =>
      simp only [processAfterEnrichment] at hc
      have := (Option.some.injEq _ _).mp hc
      rw [← this]
      rfl
    | some key =>
      simp only [processAfterEnrichment] at hc
      split at hc
      · split at hc <;> exact absurd hc (by simp)
      · have := (Option.some.injEq _ _).mp hc
        rw [← this]
        rfl
  refine ⟨?_, ?_, ?_⟩
  · rw [hcontact]
    exact jsOr_default_ne _ _ (by decide)
  · rw [hcontact]
    rfl
  · intro hname
    rw [hcontact]
    simp [contactFromEnriched, jsOr, hname]

/-- Claim C10 (witness): with no dedup key and an all-empty merged
profile, the created contact carries the literal name "Unknown". -/
theorem createdContact_name_nonEmpty_witness :
    (processAfterEnrichment none emptyContact enrichedX [] [] svcConst "id-1").createdContact
      = some (contactFromEnriched "id-1" enrichedX [] (1/2))
    ∧ (contactFromEnriched "id-1" enrichedX [] (1/2)).name ≠ ""
    ∧ (contactFromEnriched "id-1" enrichedX [] (1/2)).name = "Unknown" := by
  have hproj : (processAfterEnrichment none emptyContact enrichedX [] [] svcConst
      "id-1").createdContact = some (contactFromEnriched "id-1" enrichedX [] (1/2)) := by
    norm_num [processAfterEnrichment, enrichedX]
  have h := createdContact_name_nonEmpty none emptyContact enrichedX [] [] svcConst
    "id-1" _ hproj
  exact ⟨hproj, h.1, h.2.2 rfl⟩
